import Mathlib

/-!
Verification development for the object replication core of a storage
provider: the bounded keyed task queue (gfsptqueue), the stream reader
group, the per-shard replicator and the replicate-object orchestrator
(tasknode).  Each definition is a shallow embedding of the corresponding
Go function; comments give the embedded symbol.
-/

namespace GfSpTQueue

/-- A queue entry: the Go code only ever consults Task.Key() and
Task.EstimateLimit(), so a task is embedded as a key together with its
estimated resource limit (corercmgr.Limit is modelled as a natural number,
with limit.NotLess(est) meaning est is at most limit). -/
structure QTask where
  key : Nat
  limit : Nat
deriving DecidableEq

/-- State of GfSpTQueueWithLimit: the dense ordered slice of tasks, the
key-to-index map (association list, set semantics), the capacity, and the
two optional strategy callbacks gcFunc and filterFunc. -/
structure Queue where
  tasks : List QTask
  indexer : List (Nat × Nat)
  cap : Nat
  gcFunc : Option (QTask → Bool)
  filterFunc : Option (QTask → Bool)

/-- NewGfSpTQueueWithLimit: empty slice, empty indexer, no strategies. -/
def newQueue (cap : Nat) : Queue :=
  { tasks := [], indexer := [], cap := cap, gcFunc := none, filterFunc := none }

/-- Go map assignment m[k] = v: replace the binding if the key is present,
otherwise append it. -/
def setIndex (l : List (Nat × Nat)) (k v : Nat) : List (Nat × Nat) :=
  if (l.lookup k).isSome then
    l.map (fun p => if p.1 = k then (k, v) else p)
  else
    l ++ [(k, v)]

/-- Go delete(m, k). -/
def eraseIndex (l : List (Nat × Nat)) (k : Nat) : List (Nat × Nat) :=
  l.filter (fun p => p.1 ≠ k)

/-- GfSpTQueueWithLimit.exceed: len(t.tasks) >= t.cap. -/
def Queue.exceed (q : Queue) : Bool :=
  q.cap ≤ q.tasks.length

/-- GfSpTQueueWithLimit.add: append the task at the tail and index its key
at position len(tasks)-1. -/
def Queue.add (q : Queue) (task : QTask) : Queue :=
  let tasks2 := q.tasks ++ [task]
  { q with tasks := tasks2, indexer := setIndex q.indexer task.key (tasks2.length - 1) }

/-- GfSpTQueueWithLimit.delete: look the key up in the indexer; missing key
or an out-of-bounds index (the logged [BUG] self-check) leaves the queue
unchanged; otherwise splice the slice at that index and remove the key from
the indexer.  Note: the source does NOT reindex the surviving entries. -/
def Queue.delete (q : Queue) (task : QTask) : Queue :=
  match q.indexer.lookup task.key with
  | none => q
  | some idx =>
    if q.tasks.length ≤ idx then q
    else
      { q with
        tasks := q.tasks.take idx ++ q.tasks.drop (idx + 1),
        indexer := eraseIndex q.indexer task.key }

/-- Errors returned by Push. -/
inductive PushError where
  | repeatedTask
  | queueExceed
deriving DecidableEq

/-- GfSpTQueueWithLimit.Push: duplicate key fails; on overflow, if a retire
strategy is installed, iterate the snapshot of present tasks and, for each
backup the strategy retires, call delete on the INCOMING task (exactly as
the source does), setting the clear flag; if nothing cleared fail with
queueExceed; finally add the task. -/
def Queue.push (q : Queue) (task : QTask) : Except PushError Queue :=
  if (q.indexer.lookup task.key).isSome then
    .error .repeatedTask
  else if q.exceed then
    match q.gcFunc with
    | none => .error .queueExceed
    | some gc =>
      let cleared := q.tasks.foldl
        (fun (acc : Queue × Bool) backup =>
          if gc backup then (acc.1.delete task, true) else acc)
        (q, false)
      if cleared.2 then .ok (cleared.1.add task) else .error .queueExceed
  else
    .ok (q.add task)

/-- Scan loop shared by TopByLimit and PopByLimit: iterate the tasks from
tail to head (the argument list is the reversed slice); a task is returned
when the limit is not less than its estimate and the filter (when set)
passes; otherwise continue. -/
def findTop (filterFunc : Option (QTask → Bool)) (limit : Nat) :
    List QTask → Option QTask
  | [] => none
  | t :: rest =>
    if t.limit ≤ limit then
      match filterFunc with
      | none => some t
      | some f => if f t then some t else findTop filterFunc limit rest
    else
      findTop filterFunc limit rest

/-- GfSpTQueueWithLimit.TopByLimit: no mutation; newest eligible task. -/
def Queue.topByLimit (q : Queue) (limit : Nat) : Option QTask :=
  match q.tasks with
  | [] => none
  | _ :: _ => findTop q.filterFunc limit q.tasks.reverse

/-- GfSpTQueueWithLimit.PopByLimit: the local variable task holds the last
slice element examined by the scan; the deferred cleanup deletes it
whenever it is non-nil.  When an eligible task is found it is returned and
deleted; when the scan falls through, task still holds tasks[0], so the
deferred cleanup deletes the head even though nil is returned. -/
def Queue.popByLimit (q : Queue) (limit : Nat) : Option QTask × Queue :=
  match q.tasks with
  | [] => (none, q)
  | t0 :: _ =>
    match findTop q.filterFunc limit q.tasks.reverse with
    | some t => (some t, q.delete t)
    | none => (none, q.delete t0)

/-- GfSpTQueueWithLimit.PopByKey: look the key up; a missing key or the
[BUG] out-of-bounds self-check returns nil without mutation; otherwise
return tasks[idx] and delete it. -/
def Queue.popByKey (q : Queue) (key : Nat) : Option QTask × Queue :=
  match q.indexer.lookup key with
  | none => (none, q)
  | some idx =>
    match q.tasks[idx]? with
    | none => (none, q)
    | some task => (some task, q.delete task)

/-- Invariant I3 as a decidable check: the slice and the indexer have the
same cardinality, and every indexed key points at a slice slot holding a
task with that key. -/
def Queue.checkI3 (q : Queue) : Bool :=
  (q.tasks.length == q.indexer.length) &&
  q.indexer.all (fun p =>
    match q.tasks[p.2]? with
    | some t => t.key == p.1
    | none => false)

end GfSpTQueue

namespace GfSpTQueue

/-- Unwrap a Push result, defaulting to a zero-capacity empty queue (never
hit in the concrete runs below, every push there succeeds). -/
def unwrap (r : Except PushError Queue) : Queue :=
  match r with
  | .ok q => q
  | .error _ => newQueue 0

/-- Capacity-2 queue whose retire strategy retires exactly the task with
key 1 (task A of spec scenario 5). -/
def c1Start : Queue :=
  { newQueue 2 with gcFunc := some (fun t => t.key == 1) }

/-- The queue of scenario 5 after pushing A (key 1) and B (key 2): full. -/
def c1Two : Queue :=
  unwrap ((unwrap (c1Start.push ⟨1, 0⟩)).push ⟨2, 0⟩)

/-- The queue after additionally pushing C (key 3). -/
def c1Final : Queue :=
  unwrap (c1Two.push ⟨3, 0⟩)

/-- Claim C1: with cap=2 holding A and B and a retire strategy true exactly
for A, pushing C succeeds but the retire pass removes nothing: Push calls
delete on the incoming task C (whose key is not yet indexed, a no-op)
instead of the retired backup A, and then appends C.  The final queue is
[A, B, C] with length 3 above the capacity 2 — not the {B, C} the claim
states. -/
theorem C1_push_retire_keeps_retired_task :
    (c1Two.push ⟨3, 0⟩).isOk = true ∧
    c1Final.tasks.map QTask.key = [1, 2, 3] ∧
    c1Final.cap = 2 := by
  decide

/-- Queue after Push A(key 1), Push B(key 2), PopByKey(1) from empty. -/
def c2Final : Queue :=
  ((unwrap ((unwrap ((newQueue 10).push ⟨1, 0⟩)).push ⟨2, 0⟩)).popByKey 1).2

/-- Claim C2: after the operation sequence Push A, Push B, PopByKey(A) from
the empty queue, invariant I3 fails: delete splices task B down to slot 0
but leaves indexer[2] = 1, which is out of bounds for the length-1 slice;
the subsequent PopByKey(2) hits the [BUG] self-check and returns nil even
though B is present. -/
theorem C2_delete_breaks_indexer :
    c2Final.checkI3 = false ∧
    c2Final.tasks.map QTask.key = [2] ∧
    c2Final.indexer = [(2, 1)] ∧
    (c2Final.popByKey 2).1 = none := by
  decide

/-- Queue holding the single task with key 1 and estimated limit 5. -/
def c3Start : Queue :=
  unwrap ((newQueue 10).push ⟨1, 5⟩)

/-- Claim C3: on a queue holding one task whose estimate 5 exceeds the
limit 3, TopByLimit selects nothing, and PopByLimit likewise returns nil —
but its deferred cleanup still deletes tasks[0] (the scan variable holds
the last examined task), so the queue is emptied although no task was
chosen.  The claim says the queue contents are unchanged in this case. -/
theorem C3_popByLimit_removes_unchosen_head :
    c3Start.topByLimit 3 = none ∧
    (c3Start.popByLimit 3).1 = none ∧
    (c3Start.popByLimit 3).2.tasks = [] ∧
    c3Start.tasks.map QTask.key = [1] := by
  decide

end GfSpTQueue

namespace TaskNode

/-- Byte strings are modelled as lists of bytes. -/
abbrev Bytes := List Nat

/-- newStreamReaderGroup (tasknode): for every segment piece index below
segmentPieceNumber and every redundancy index below redundancyNumber that
the exclude map does not exclude, a pipe is created under that redundancy
index (map insertion, idempotent across segments) and the atLeastHasOne
flag is set.  If the flag stays false the constructor fails with
ErrInvalidParams (modelled as none); otherwise it returns the list of
active redundancy indices. -/
def newStreamReaderGroup (segmentPieceNumber redundancyNumber : Nat)
    (excludeIndexMap : Nat → Bool) : Option (List Nat) :=
  let insertIdx := fun (l : List Nat) (i : Nat) => if i ∈ l then l else l ++ [i]
  let oneSegment := fun (acc : List Nat × Bool) =>
    (List.range redundancyNumber).foldl
      (fun acc2 idx =>
        if excludeIndexMap idx then acc2 else (insertIdx acc2.1 idx, true))
      acc
  let res := (List.range segmentPieceNumber).foldl (fun acc _ => oneSegment acc) ([], false)
  if res.2 then some res.1 else none

/-- Environment of the producer goroutine: the piece-store fetch result per
segment index (GetPiece) and the erasure encoder result
(redundancy.EncodeRawSegment, returning the K+M shards or an error). -/
structure ProducerEnv where
  fetchPiece : Nat → Option Bytes
  encodeRawSegment : Bytes → Option (List Bytes)

/-- How a producer run ended: an early return after a failed fetch or a
failed encode (pipes closed with the error), or normal completion (pipes
closed clean). -/
inductive ProduceEnd where
  | fetchFailed (seg : Nat)
  | encodeFailed (seg : Nat)
  | completed
deriving DecidableEq

/-- Result of one producer run: the values sent on the one-shot pieceSize
channel, in order, and how the run ended. -/
structure ProduceResult where
  published : List Nat
  ending : ProduceEnd
deriving DecidableEq

/-- Loop body of produceStreamPieceData over the remaining segment indices,
carrying the gotPieceSize flag.  An EC segment is fetched and encoded, and
on the first success len(ecPieceData[0]) is published; a replicated
segment publishes len(segmentPieceData).  Any fetch or encode error ends
the run (in the source, by closing every pipe with the error). -/
def produceFrom (env : ProducerEnv) (isEC : Bool) (gotPieceSize : Bool) :
    List Nat → List Nat × ProduceEnd
  | [] => ([], .completed)
  | seg :: rest =>
    match env.fetchPiece seg with
    | none => ([], .fetchFailed seg)
    | some segmentPieceData =>
      if isEC then
        match env.encodeRawSegment segmentPieceData with
        | none => ([], .encodeFailed seg)
        | some ecPieceData =>
          let pub := if gotPieceSize then [] else [(ecPieceData.headD []).length]
          let tail := produceFrom env isEC true rest
          (pub ++ tail.1, tail.2)
      else
        let pub := if gotPieceSize then [] else [segmentPieceData.length]
        let tail := produceFrom env isEC true rest
        (pub ++ tail.1, tail.2)

/-- produceStreamPieceData: run the goroutine body over all segment piece
indices with the gotPieceSize flag initially false. -/
def produceStreamPieceData (env : ProducerEnv) (isEC : Bool)
    (segmentPieceNumber : Nat) : ProduceResult :=
  let r := produceFrom env isEC false (List.range segmentPieceNumber)
  { published := r.1, ending := r.2 }

/-- The consumer side sg.pieceSize = <-ch: the single published value when
there is one, otherwise the zero value delivered when the deferred close
releases the blocked receive. -/
def consumedPieceSize (r : ProduceResult) : Nat :=
  r.published.headD 0

/-- Whether the first segment piece is produced successfully (fetched, and
for EC also encoded) — the condition under which the publish path runs. -/
def firstSegmentOk (env : ProducerEnv) (isEC : Bool) : Bool :=
  match env.fetchPiece 0 with
  | none => false
  | some d => if isEC then (env.encodeRawSegment d).isSome else true

/-- Claim C10: whenever segmentPieceNumber is 0 the stream-reader map is
never populated (the population loop iterates segment indices), so
newStreamReaderGroup fails with ErrInvalidParams for every redundancy
count and every exclude map, including one excluding nothing. -/
theorem C10_zero_segments_invalid_params :
    ∀ (redundancyNumber : Nat) (excludeIndexMap : Nat → Bool),
      newStreamReaderGroup 0 redundancyNumber excludeIndexMap = none := by
  intro n ex
  rfl

end TaskNode

namespace TaskNode

/-- Once the gotPieceSize flag is set, the remaining producer iterations
never publish on the pieceSize channel. -/
theorem produceFrom_true_nil (env : ProducerEnv) (isEC : Bool)
    (segs : List Nat) : (produceFrom env isEC true segs).1 = [] := by
  induction segs with
  | nil => rfl
  | cons seg rest ih =>
    simp only [produceFrom]
    cases hf : env.fetchPiece seg with
    | none => rfl
    | some d =>
      cases isEC with
      | false => simpa using ih
      | true =>
        cases he : env.encodeRawSegment d with
        | none => simp [he]
        | some shards => simpa [he] using ih

/-- Claim C9 (amended): the producer publishes at most one value on the
pieceSize channel, and publishes exactly one value precisely when the
first segment piece is produced successfully; when it does publish a
single value, the consumer caches exactly that value as pieceSize.  In a
run whose first fetch or encode fails, nothing is published and the
consumer observes the zero value of the closed channel. -/
theorem C9_piece_size_published_at_most_once (env : ProducerEnv) (isEC : Bool)
    (segmentPieceNumber : Nat) (h : 1 ≤ segmentPieceNumber) :
    (produceStreamPieceData env isEC segmentPieceNumber).published.length ≤ 1 ∧
    ((produceStreamPieceData env isEC segmentPieceNumber).published.length = 1 ↔
      firstSegmentOk env isEC = true) ∧
    (∀ n, (produceStreamPieceData env isEC segmentPieceNumber).published = [n] →
      consumedPieceSize (produceStreamPieceData env isEC segmentPieceNumber) = n) := by
  obtain ⟨m, rfl⟩ : ∃ m, segmentPieceNumber = m + 1 :=
    ⟨segmentPieceNumber - 1, by omega⟩
  have hr : List.range (m + 1) = 0 :: (List.range m).map Nat.succ :=
    List.range_succ_eq_map m
  unfold produceStreamPieceData
  rw [hr]
  simp only [produceFrom]
  cases hf : env.fetchPiece 0 with
  | none =>
    simp [firstSegmentOk, hf, consumedPieceSize]
  | some d =>
    cases isEC with
    | true =>
      cases he : env.encodeRawSegment d with
      | none => simp [firstSegmentOk, hf, he, consumedPieceSize]
      | some shards =>
        simp [firstSegmentOk, hf, he, consumedPieceSize, produceFrom_true_nil]
    | false =>
      simp [firstSegmentOk, hf, consumedPieceSize, produceFrom_true_nil]

/-- Producer environment whose every fetch fails. -/
def c9FailEnv : ProducerEnv :=
  { fetchPiece := fun _ => none, encodeRawSegment := fun _ => none }

/-- Claim C9 (counterexample): in a one-segment replicated run whose first
fetch fails, the producer ends at fetchFailed 0 having published NOTHING
on the pieceSize channel — not the exactly-one value the claim states for
runs where fetching fails — and the consumer is handed the zero value 0
by the deferred channel close. -/
theorem C9_failed_fetch_publishes_nothing :
    (produceStreamPieceData c9FailEnv false 1).published = [] ∧
    (produceStreamPieceData c9FailEnv false 1).ending = .fetchFailed 0 ∧
    consumedPieceSize (produceStreamPieceData c9FailEnv false 1) = 0 := by
  decide

/-- Producer environment delivering a two-byte piece for every segment. -/
def c9OkEnv : ProducerEnv :=
  { fetchPiece := fun _ => some [7, 7], encodeRawSegment := fun _ => none }

/-- Witness for C9: a concrete two-segment replicated run publishing
exactly once. -/
theorem C9_piece_size_published_at_most_once_witness :
    (produceStreamPieceData c9OkEnv false 2).published.length ≤ 1 ∧
    ((produceStreamPieceData c9OkEnv false 2).published.length = 1 ↔
      firstSegmentOk c9OkEnv false = true) ∧
    (∀ n, (produceStreamPieceData c9OkEnv false 2).published = [n] →
      consumedPieceSize (produceStreamPieceData c9OkEnv false 2) = n) :=
  C9_piece_size_published_at_most_once c9OkEnv false 2 (by decide)

end TaskNode

namespace TaskNode

/-- The sign document NewSecondarySpSignDoc(spOperator, objectId,
integrityHash): the operator address and the object id are modelled as
naturals. -/
structure SecondarySpSignDoc where
  spOperator : Nat
  objectId : Nat
  integrityHash : Bytes
deriving DecidableEq

/-- The cryptographic collaborators of the replicator, all external to the
repository (greenfield chain and cosmos SDK): GetSignBytes on the sign
document, Keccak256, and VerifySignature (true means a nil verification
error). -/
structure CryptoOps where
  getSignBytes : SecondarySpSignDoc → Bytes
  keccak256 : Bytes → Bytes
  verifySignature : Nat → Bytes → Bytes → Bool

/-- The per-call outside world of replicate: whether NewGatewayClient
succeeds, what ReplicateObjectPieceStream returns (the integrity hash and
signature of the secondary, or a transport error), and what
AccAddressFromHexUnsafe parses the approval address to. -/
structure ReplicatorEnv where
  gatewayOk : Bool
  streamResult : Option (Bytes × Bytes)
  approvalAddr : Option Nat

/-- The error cases of replicate, in source order. -/
inductive ReplicateError where
  | gatewayError
  | streamError
  | mismatchIntegrityHash
  | addrParseError
  | signatureInvalid
deriving DecidableEq

/-- The fields of streamPieceDataReplicator that decide the outcome. -/
structure Replicator where
  pieceSize : Nat
  redundancyIndex : Nat
  expectedIntegrityHash : Bytes
  spOperator : Nat
  objectId : Nat

/-- The replicator of the fan-out loop in replicateObjectTask.execute: its
expected integrity hash is GetChecksums()[redundancyIndex + 1]. -/
def mkReplicator (checksums : List Bytes) (pieceSize redundancyIndex spOperator objectId : Nat) :
    Replicator :=
  { pieceSize := pieceSize,
    redundancyIndex := redundancyIndex,
    expectedIntegrityHash := checksums.getD (redundancyIndex + 1) [],
    spOperator := spOperator,
    objectId := objectId }

/-- streamPieceDataReplicator.replicate: open the gateway client, stream
the pipe and receive (integrityHash, signature); fail with
ErrMismatchIntegrityHash unless the hash equals the expected one; build
the sign document over the received hash, parse the approval address, and
verify the signature over the Keccak256 of the sign bytes; return the
pair on success. -/
def replicate (crypto : CryptoOps) (env : ReplicatorEnv) (r : Replicator) :
    Except ReplicateError (Bytes × Bytes) :=
  if !env.gatewayOk then .error .gatewayError
  else
    match env.streamResult with
    | none => .error .streamError
    | some (integrityHash, signature) =>
      if integrityHash ≠ r.expectedIntegrityHash then .error .mismatchIntegrityHash
      else
        let originMsgHash := crypto.getSignBytes
          ⟨r.spOperator, r.objectId, integrityHash⟩
        match env.approvalAddr with
        | none => .error .addrParseError
        | some addr =>
          if crypto.verifySignature addr (crypto.keccak256 originMsgHash) signature
          then .ok (integrityHash, signature)
          else .error .signatureInvalid

/-- Claim C8: when the gateway interaction yields (integrityHash,
signature) and the approval address parses, the replicator succeeds
exactly when the integrity hash equals the expected checksum at index
redundancyIndex+1 AND the signature verifies, under the approval address
key, over the Keccak256 of the sign bytes of
SecondarySpSignDoc(spOperator, objectId, integrityHash); a hash mismatch
yields ErrMismatchIntegrityHash. -/
theorem C8_replicate_accepts_iff (crypto : CryptoOps) (env : ReplicatorEnv)
    (checksums : List Bytes) (pieceSize redundancyIndex spOperator objectId : Nat)
    (integrityHash signature : Bytes) (addr : Nat)
    (hgw : env.gatewayOk = true)
    (hstream : env.streamResult = some (integrityHash, signature))
    (haddr : env.approvalAddr = some addr) :
    (replicate crypto env
        (mkReplicator checksums pieceSize redundancyIndex spOperator objectId) =
        .ok (integrityHash, signature) ↔
      (integrityHash = checksums.getD (redundancyIndex + 1) [] ∧
        crypto.verifySignature addr
          (crypto.keccak256 (crypto.getSignBytes
            ⟨spOperator, objectId, integrityHash⟩)) signature = true)) ∧
    (integrityHash ≠ checksums.getD (redundancyIndex + 1) [] →
      replicate crypto env
          (mkReplicator checksums pieceSize redundancyIndex spOperator objectId) =
        .error .mismatchIntegrityHash) := by
  have hcore : replicate crypto env
      (mkReplicator checksums pieceSize redundancyIndex spOperator objectId) =
      (if integrityHash ≠ checksums.getD (redundancyIndex + 1) [] then
        .error .mismatchIntegrityHash
      else if crypto.verifySignature addr
          (crypto.keccak256 (crypto.getSignBytes
            ⟨spOperator, objectId, integrityHash⟩)) signature then
        .ok (integrityHash, signature)
      else .error .signatureInvalid) := by
    unfold replicate mkReplicator
    rw [hgw, hstream, haddr]
    rfl
  rw [hcore]
  by_cases hih : integrityHash = checksums.getD (redundancyIndex + 1) []
  · rw [if_neg (not_not_intro hih)]
    by_cases hv : crypto.verifySignature addr
        (crypto.keccak256 (crypto.getSignBytes
          ⟨spOperator, objectId, integrityHash⟩)) signature = true
    · rw [if_pos hv]
      exact ⟨⟨fun _ => ⟨hih, hv⟩, fun _ => rfl⟩, fun hne => absurd hih hne⟩
    · rw [if_neg hv]
      refine ⟨⟨fun h => ?_, fun h2 => absurd h2.2 hv⟩, fun hne => absurd hih hne⟩
      exact absurd h (by simp)
  · rw [if_pos hih]
    refine ⟨⟨fun h => ?_, fun h2 => absurd h2.1 hih⟩, fun _ => rfl⟩
    exact absurd h (by simp)

/-- Concrete crypto operations for the witness: the sign bytes are the
integrity hash itself, Keccak256 maps each byte to its successor, and a
signature verifies when it equals the digest shifted by the address. -/
def c8Crypto : CryptoOps :=
  { getSignBytes := fun d => d.integrityHash,
    keccak256 := fun b => b.map Nat.succ,
    verifySignature := fun addr digest signature =>
      signature == digest.map (fun x => x + addr) }

/-- Concrete replicator environment for the witness. -/
def c8Env : ReplicatorEnv :=
  { gatewayOk := true,
    streamResult := some ([5, 9], [8, 12]),
    approvalAddr := some 2 }

/-- Witness for C8 at a concrete accepting run: checksums have the
expected hash at index 1 for shard 0. -/
theorem C8_replicate_accepts_iff_witness :
    (replicate c8Crypto c8Env (mkReplicator [[0], [5, 9]] 2 0 11 17) =
        .ok ([5, 9], [8, 12]) ↔
      (([5, 9] : Bytes) = [[0], [5, 9]].getD (0 + 1) [] ∧
        c8Crypto.verifySignature 2
          (c8Crypto.keccak256 (c8Crypto.getSignBytes ⟨11, 17, [5, 9]⟩))
          [8, 12] = true)) ∧
    (([5, 9] : Bytes) ≠ [[0], [5, 9]].getD (0 + 1) [] →
      replicate c8Crypto c8Env (mkReplicator [[0], [5, 9]] 2 0 11 17) =
        .error .mismatchIntegrityHash) :=
  C8_replicate_accepts_iff c8Crypto c8Env [[0], [5, 9]] 2 0 11 17
    [5, 9] [8, 12] 2 (by decide) (by decide) (by decide)

end TaskNode

set_option maxRecDepth 8000

namespace TaskNode

/-- Fuel-bounded floor of log2 (the fuel 300 covers every natural below
2 to the 300, far beyond any value occurring here). -/
def log2go : Nat → Nat → Nat
  | 0, _ => 0
  | f + 1, n => if n ≤ 1 then 0 else log2go f (n / 2) + 1

/-- Floor of log2 of a natural number. -/
def log2b (n : Nat) : Nat := log2go 300 n

/-- Floor of log2 of the positive rational num/den, via scaling by 2 to
the 128 (exact for every magnitude reachable in this code). -/
def ilog2 (num den : Nat) : Int :=
  (log2b (num * 2 ^ 128 / den) : Int) - 128

/-- Round the rational a/b to the nearest integer, ties to even. -/
def rheNat (a b : Nat) : Nat :=
  let f := a / b
  let r := a % b
  if 2 * r < b then f
  else if b < 2 * r then f + 1
  else if f % 2 = 0 then f else f + 1

/-- An IEEE-754 binary64 value in the normal range, as an unsigned
mantissa times 2 to a signed exponent.  The replication code only ever
feeds non-negative in-range values into its float expressions, so sign,
subnormals, overflow and NaN never arise and are not modelled. -/
structure F64 where
  m : Nat
  e : Int
deriving DecidableEq

/-- Round the non-negative rational num/den to binary64: scale into
[2 to the 52, 2 to the 53) and round the mantissa to nearest, ties to
even. -/
def roundPos (num den : Nat) : F64 :=
  if num = 0 then ⟨0, 0⟩
  else
    let e := ilog2 num den
    if 0 ≤ 52 - e then
      ⟨rheNat (num * 2 ^ (52 - e).toNat) den, e - 52⟩
    else
      ⟨rheNat num (den * 2 ^ (e - 52).toNat), e - 52⟩

/-- Go float64(n) for an unsigned integer n. -/
def toF64 (n : Nat) : F64 := roundPos n 1

/-- Binary64 division (division by zero, which Go sends to infinity, is
out of the modelled range; the theorems below assume a positive
divisor). -/
def f64div (a b : F64) : F64 :=
  if b.m = 0 then ⟨0, 0⟩
  else
    let r := roundPos a.m b.m
    ⟨r.m, r.e + a.e - b.e⟩

/-- Binary64 addition of non-negative values. -/
def f64add (a b : F64) : F64 :=
  let emin := min a.e b.e
  let n1 := a.m * 2 ^ (a.e - emin).toNat
  let n2 := b.m * 2 ^ (b.e - emin).toNat
  let r := roundPos (n1 + n2) 1
  ⟨r.m, r.e + emin⟩

/-- Binary64 multiplication of non-negative values. -/
def f64mul (a b : F64) : F64 :=
  let r := roundPos (a.m * b.m) 1
  ⟨r.m, r.e + a.e + b.e⟩

/-- Go int(x) for a non-negative float64: truncation toward zero. -/
def f64toInt (x : F64) : Int :=
  if 0 ≤ x.e then (x.m * 2 ^ x.e.toNat : Nat)
  else (x.m / 2 ^ (-x.e).toNat : Nat)

/-- The approximate memory size computed by replicateObjectTask.init:
int(float64(max_segment_size) * (float64(K+M)/float64(K) + 1)),
recomputed from the payload size instead when payload_size <
max_segment_size. -/
def approximateMemSize (payloadSize maxSegmentSize K M : Nat) : Int :=
  let redundancyNumber := K + M
  let factor := f64add (f64div (toF64 redundancyNumber) (toF64 K)) (toF64 1)
  if payloadSize < maxSegmentSize then
    f64toInt (f64mul (toF64 payloadSize) factor)
  else
    f64toInt (f64mul (toF64 maxSegmentSize) factor)

/-- The memory-size formula of the claim, read with exact rational
division: min(payload_size, max_segment_size) * ((K+M)/K + 1). -/
def exactMemSize (payloadSize maxSegmentSize K M : Nat) : ℚ :=
  ((min payloadSize maxSegmentSize : Nat) : ℚ) *
    (((K + M : Nat) : ℚ) / (K : ℚ) + 1)

/-- ReplicateFactor constant of the tasknode package. -/
def ReplicateFactor : Nat := 1

/-- GetApprovalTimeout constant of the tasknode package. -/
def GetApprovalTimeout : Nat := 10

/-- Modelled from the spec: piecestore.ComputeSegmentCount is not part of
the given sources; the spec defines segment_piece_number =
ceil(payload_size / max_segment_size). -/
def computeSegmentCount (payloadSize maxSegmentSize : Nat) : Nat :=
  (payloadSize + maxSegmentSize - 1) / maxSegmentSize

/-- The object fields read by init. -/
structure ObjectInfo where
  payloadSize : Nat
  checksums : List Bytes
deriving DecidableEq

/-- The storage parameter snapshot returned by SpDB.GetStorageParams. -/
structure StorageParams where
  maxSegmentSize : Nat
  redundantDataChunkNum : Nat
  redundantParityChunkNum : Nat
deriving DecidableEq

/-- Outside world of init: the storage-param query result, the approval
gathering result (the sorted endpoint list on success), and whether the
memory reservation succeeds. -/
structure InitEnv where
  storageParams : Option StorageParams
  approvals : Option (List Nat)
  reserveOk : Bool

/-- Side effects of init on the approval layer and the resource
manager. -/
inductive InitEffect where
  | approvalRequest (expectedNum askNum timeout : Nat)
  | memoryReserve (size : Int)
deriving DecidableEq

/-- The failure cases of init, in source order. -/
inductive InitError where
  | dbError
  | invalidParams
  | approvalError
  | reserveError
deriving DecidableEq

/-- The task fields a successful init populates. -/
structure InitResult where
  segmentPieceNumber : Nat
  redundancyNumber : Nat
  sortedSpEndpoints : List Nat
  approximateMemSize : Int
deriving DecidableEq

/-- replicateObjectTask.init: query storage params; derive the segment
and redundancy counts; fail with ErrInvalidParams when redundancyNumber+1
differs from the checksum count; request approvals for redundancyNumber
times ReplicateFactor candidates with the GetApprovalTimeout deadline;
compute the approximate memory size and reserve it.  The effect list
records exactly the approval request and the reservation call. -/
def initTask (env : InitEnv) (object : ObjectInfo) :
    Except InitError InitResult × List InitEffect :=
  match env.storageParams with
  | none => (.error .dbError, [])
  | some params =>
    let segmentPieceNumber := computeSegmentCount object.payloadSize params.maxSegmentSize
    let redundancyNumber := params.redundantDataChunkNum + params.redundantParityChunkNum
    if redundancyNumber + 1 ≠ object.checksums.length then
      (.error .invalidParams, [])
    else
      let approvalEff := InitEffect.approvalRequest redundancyNumber
        (redundancyNumber * ReplicateFactor) GetApprovalTimeout
      match env.approvals with
      | none => (.error .approvalError, [approvalEff])
      | some endpoints =>
        let memSize := approximateMemSize object.payloadSize params.maxSegmentSize
          params.redundantDataChunkNum params.redundantParityChunkNum
        if env.reserveOk then
          (.ok { segmentPieceNumber := segmentPieceNumber,
                 redundancyNumber := redundancyNumber,
                 sortedSpEndpoints := endpoints,
                 approximateMemSize := memSize },
           [approvalEff, .memoryReserve memSize])
        else
          (.error .reserveError, [approvalEff, .memoryReserve memSize])

/-- Claim C5: whenever the checksum count differs from
redundancyNumber+1, init fails with ErrInvalidParams and its effect list
is empty — no approval was requested and no memory was reserved. -/
theorem C5_checksum_mismatch_fails_before_side_effects
    (env : InitEnv) (object : ObjectInfo) (params : StorageParams)
    (hp : env.storageParams = some params)
    (hmis : params.redundantDataChunkNum + params.redundantParityChunkNum + 1 ≠
      object.checksums.length) :
    initTask env object = (.error .invalidParams, []) := by
  simp [initTask, hp, hmis]

/-- Witness for C5: scenario 4 of the spec, six checksums for
redundancy number six. -/
theorem C5_checksum_mismatch_fails_before_side_effects_witness :
    initTask ⟨some ⟨1048576, 4, 2⟩, some [1, 2, 3], true⟩
      ⟨256, [[], [], [], [], [], []]⟩ = (.error .invalidParams, []) :=
  C5_checksum_mismatch_fails_before_side_effects
    ⟨some ⟨1048576, 4, 2⟩, some [1, 2, 3], true⟩
    ⟨256, [[], [], [], [], [], []]⟩ ⟨1048576, 4, 2⟩ rfl (by decide)

end TaskNode

namespace TaskNode

/-- Init environment of the C6 counterexample: max_segment_size 16, K=3,
M=1, four approved endpoints, reservation succeeds. -/
def c6Env : InitEnv :=
  { storageParams := some ⟨16, 3, 1⟩,
    approvals := some [1, 2, 3, 4],
    reserveOk := true }

/-- Object of the C6 counterexample: payload 3 bytes, five checksums
(redundancy number 4 plus one). -/
def c6Object : ObjectInfo :=
  { payloadSize := 3, checksums := [[], [], [], [], []] }

/-- Claim C6 (counterexample): this init succeeds, and it reserves
int(float64(3) * (float64(4)/float64(3) + 1)) = 6 bytes, because the
binary64 value of 4/3 + 1 times 3 is just below 7 and Go truncates; the
exact rational formula of the claim gives 3 * (4/3 + 1) = 7.  The reserved
size therefore does not equal the exact-rational value. -/
theorem C6_float_division_truncates :
    (initTask c6Env c6Object).2 =
      [.approvalRequest 4 4 10, .memoryReserve 6] ∧
    (initTask c6Env c6Object).1.isOk = true ∧
    exactMemSize 3 16 3 1 = 7 := by
  refine ⟨by decide, by decide, ?_⟩
  show ((min 3 16 : Nat) : ℚ) * (((3 + 1 : Nat) : ℚ) / (3 : ℚ) + 1) = 7
  norm_num

/-- Claim C6 (amended): the reservation is the float64 evaluation of the
formula truncated toward zero, not its exact rational value; whenever
payload_size < max_segment_size it is computed from the payload size and
is independent of the segment size; for payload 256, segment size 1 MiB,
K=4, M=2 the float64 evaluation is exact and the reservation is
256 * (6/4 + 1) = 640 bytes, agreeing with the rational formula. -/
theorem C6_mem_size_payload_scaled :
    (∀ payloadSize s1 s2 K M : Nat, payloadSize < s1 → payloadSize < s2 →
      approximateMemSize payloadSize s1 K M = approximateMemSize payloadSize s2 K M) ∧
    approximateMemSize 256 1048576 4 2 = 640 ∧
    exactMemSize 256 1048576 4 2 = 640 := by
  refine ⟨fun payloadSize s1 s2 K M h1 h2 => ?_, by decide, ?_⟩
  · simp [approximateMemSize, h1, h2]
  · show ((min 256 1048576 : Nat) : ℚ) * (((4 + 2 : Nat) : ℚ) / (4 : ℚ) + 1) = 640
    norm_num

/-- Witness for C6 (amended): segment sizes 16 and 32 give the same
reservation for a 3-byte payload. -/
theorem C6_mem_size_payload_scaled_witness :
    approximateMemSize 3 16 3 1 = approximateMemSize 3 32 3 1 :=
  C6_mem_size_payload_scaled.1 3 16 32 3 1 (by decide) (by decide)

end TaskNode

namespace TaskNode

/-- The persisted job states touched by execute. -/
inductive JobState where
  | replicateDoing
  | replicateError
  | signDoing
  | signError
  | sealDoing
  | sealError
  | sealDone
deriving DecidableEq

/-- The observable effects of execute: job-state updates persisted through
SpDB, the signer call SealObjectOnChain, the chain call ListenObjectSeal,
and the memory release of the deferred cleanup. -/
inductive Effect where
  | jobState (s : JobState)
  | signCall
  | listenSeal
  | releaseMemory (size : Int)
deriving DecidableEq

/-- How a run of execute ended. -/
inductive Outcome where
  | sealed
  | signFailed
  | sealFailed
  | sgError
  | poolExhausted
  | replicateFailed
  | outOfFuel
deriving DecidableEq

/-- The task fields execute reads, as established by init. -/
structure ExecTask where
  redundancyNumber : Nat
  segmentPieceNumber : Nat
  approximateMemSize : Int
  sortedSpEndpoints : List Nat

/-- Outside world of execute: whether the replication of a given shard
index succeeds in a given round, and whether the signer and the chain
listener succeed. -/
structure ExecEnv where
  replicateOk : Nat → Nat → Bool
  signOk : Bool
  listenOk : Bool

/-- The isAllSucceed closure: every index in [0, redundancyNumber) is true
in the succeed map. -/
def isAllSucceed (succeed : Nat → Bool) (redundancyNumber : Nat) : Bool :=
  (List.range redundancyNumber).all succeed

/-- The fan-out over the active shard indices, scheduled in index order:
each worker first consumes the head of the candidate pool under the mutex
(pickSp consumes the endpoint even when the later replication fails, and
an empty pool is a per-shard ExhaustedSP failure), then replicates, and on
success marks its own index in the succeed map. -/
def fanOut (env : ExecEnv) (round : Nat) :
    List Nat → (Nat → Bool) → List Nat → (Nat → Bool) × List Nat
  | [], succeed, sps => (succeed, sps)
  | _ :: rest, succeed, [] => fanOut env round rest succeed []
  | i :: rest, succeed, _ :: spsRest =>
    if env.replicateOk round i then
      fanOut env round rest (fun j => if j = i then true else succeed j) spsRest
    else
      fanOut env round rest succeed spsRest

/-- Lines 380-402 of execute, after the outer loop: the seal block guarded
by isAllSucceed, with the else branch persisting REPLICATE_ERROR (the
only write of that state; the loop breaks only when isAllSucceed holds,
so this branch is unreachable from executeLoop). -/
def postLoop (t : ExecTask) (env : ExecEnv) (succeed : Nat → Bool) :
    Outcome × List Effect :=
  if isAllSucceed succeed t.redundancyNumber then
    if env.signOk then
      if env.listenOk then
        (.sealed, [.jobState .signDoing, .signCall, .jobState .sealDoing,
          .listenSeal, .jobState .sealDone])
      else
        (.sealFailed, [.jobState .signDoing, .signCall, .jobState .sealDoing,
          .listenSeal, .jobState .sealError])
    else
      (.signFailed, [.jobState .signDoing, .signCall, .jobState .signError])
  else
    (.replicateFailed, [.jobState .replicateError])

/-- The outer retry loop of execute: break to postLoop when all indices
succeeded; construct the stream reader group over the unfilled indices
(an error returns from execute); return when the group needs more pipes
than there are remaining candidate endpoints (the pool-exhaustion abort,
which performs NO job-state update); otherwise run the fan-out and loop.
The fuel bounds the number of outer iterations; real runs never exhaust
it because each round strictly shrinks the pool or fills an index. -/
def executeLoop (t : ExecTask) (env : ExecEnv) :
    Nat → (Nat → Bool) → List Nat → Nat → Outcome × List Effect
  | _, _, _, 0 => (.outOfFuel, [])
  | round, succeed, sps, fuel + 1 =>
    if isAllSucceed succeed t.redundancyNumber then postLoop t env succeed
    else
      match newStreamReaderGroup t.segmentPieceNumber t.redundancyNumber succeed with
      | none => (.sgError, [])
      | some activeIdxs =>
        if sps.length < activeIdxs.length then (.poolExhausted, [])
        else
          let stepped := fanOut env round activeIdxs succeed sps
          executeLoop t env (round + 1) stepped.1 stepped.2 fuel

/-- replicateObjectTask.execute: persist REPLICATE_DOING, run the outer
loop from an empty succeed map and the full candidate pool, and append
the deferred ReleaseMemory of the reserved size on the way out. -/
def executeTask (t : ExecTask) (env : ExecEnv) (fuel : Nat) :
    Outcome × List Effect :=
  let r := executeLoop t env 0 (fun _ => false) t.sortedSpEndpoints fuel
  (r.1, .jobState .replicateDoing :: r.2 ++ [.releaseMemory t.approximateMemSize])

/-- The sizes of the ReleaseMemory effects in a trace. -/
def releasesOf (effs : List Effect) : List Int :=
  effs.filterMap (fun e =>
    match e with
    | .releaseMemory n => some n
    | _ => none)

end TaskNode

namespace TaskNode

/-- The task of spec scenario 3: redundancy number 6, one segment, 640
bytes reserved, but only five approved endpoints. -/
def c4Task : ExecTask :=
  { redundancyNumber := 6, segmentPieceNumber := 1,
    approximateMemSize := 640, sortedSpEndpoints := [0, 1, 2, 3, 4] }

/-- An environment in which every external call would succeed. -/
def c4Env : ExecEnv :=
  { replicateOk := fun _ _ => true, signOk := true, listenOk := true }

/-- Claim C4: on pool exhaustion (six pipes, five candidate endpoints)
execute returns from inside the loop; the whole trace is the initial
REPLICATE_DOING update plus the deferred memory release.  No seal is
attempted and the memory is released, as the claim says, but the
persisted job state is left at REPLICATE_DOING: the REPLICATE_ERROR write
sits in the dead else branch after the loop and is never executed. -/
theorem C4_pool_exhaustion_skips_replicate_error :
    executeTask c4Task c4Env 3 =
      (.poolExhausted, [.jobState .replicateDoing, .releaseMemory 640]) ∧
    Effect.jobState .replicateError ∉ (executeTask c4Task c4Env 3).2 ∧
    Effect.signCall ∉ (executeTask c4Task c4Env 3).2 := by
  refine ⟨by decide, by decide, by decide⟩

/-- The postLoop block never releases memory. -/
theorem postLoop_no_release (t : ExecTask) (env : ExecEnv)
    (succeed : Nat → Bool) : releasesOf (postLoop t env succeed).2 = [] := by
  unfold postLoop
  split_ifs <;> rfl

/-- The loop body of execute never releases memory: the only release is
the deferred one appended by executeTask. -/
theorem executeLoop_no_release (t : ExecTask) (env : ExecEnv) :
    ∀ (fuel round : Nat) (succeed : Nat → Bool) (sps : List Nat),
      releasesOf (executeLoop t env round succeed sps fuel).2 = [] := by
  intro fuel
  induction fuel with
  | zero => intro round succeed sps; rfl
  | succ fuel ih =>
    intro round succeed sps
    unfold executeLoop
    by_cases hall : isAllSucceed succeed t.redundancyNumber = true
    · simp only [hall, if_true]
      exact postLoop_no_release t env succeed
    · simp only [hall, if_false, Bool.false_eq_true]
      cases newStreamReaderGroup t.segmentPieceNumber t.redundancyNumber succeed with
      | none => rfl
      | some activeIdxs =>
        by_cases hlen : sps.length < activeIdxs.length
        · simp only [hlen, if_true]
          rfl
        · simp only [hlen, if_false]
          exact ih (round + 1) _ _

/-- Claim C7: on every exit path of execute that is a real exit (not the
fuel artifact of the embedding), the trace contains exactly one
ReleaseMemory effect and its size is exactly the approximateMemSize that
init reserved. -/
theorem C7_release_balances_reserve (t : ExecTask) (env : ExecEnv)
    (fuel : Nat) (h : (executeTask t env fuel).1 ≠ .outOfFuel) :
    releasesOf (executeTask t env fuel).2 = [t.approximateMemSize] := by
  have hl := executeLoop_no_release t env fuel 0 (fun _ => false) t.sortedSpEndpoints
  unfold executeTask releasesOf at *
  show List.filterMap _
    (Effect.jobState JobState.replicateDoing ::
      (executeLoop t env 0 (fun _ => false) t.sortedSpEndpoints fuel).2 ++
      [Effect.releaseMemory t.approximateMemSize]) = [t.approximateMemSize]
  simp only [List.filterMap_cons, List.filterMap_append, hl]
  rfl

/-- Witness for C7: a one-shard task that seals successfully releases
exactly the 640 reserved bytes. -/
theorem C7_release_balances_reserve_witness :
    releasesOf (executeTask ⟨1, 1, 640, [0]⟩
      ⟨fun _ _ => true, true, true⟩ 2).2 = [640] :=
  C7_release_balances_reserve ⟨1, 1, 640, [0]⟩
    ⟨fun _ _ => true, true, true⟩ 2 (by decide)

end TaskNode
